import Mathlib

/-!
Verification development for the map-generation script
src/scripts/generate_folium.py of the ww_drought_demo repository.

The script reads two GeoPackage files into pandas/geopandas data frames,
filters and transforms a numeric column, renders three choropleth layers
(2019 yield, 2022 yield, and the 2022-2019 difference) with bound colormap
legends, and saves a single HTML document.

The embedding below models:
  * the numeric column operations `Series.round(2)` (round half to even)
    and `Series.clip(0, 11)` over ℚ;
  * data frames as labelled rows of (column, cell) pairs, with pandas
    label-based alignment for series arithmetic and column assignment;
  * the folium document as an ordered list of children (layers, colormaps,
    colormap bindings, layer control);
  * the Jinja template of class BindColormap (lines 29-41) as a two-field
    state machine driven by leaflet overlayadd/overlayremove events.
-/

namespace WWDrought

/-! ### Numeric primitives: pandas round/clip semantics -/

/-- Round half to even (numpy/pandas rounding) of a rational to an integer. -/
def rhe (q : ℚ) : ℤ :=
  if q - (⌊q⌋ : ℚ) < 1/2 then ⌊q⌋
  else if 1/2 < q - (⌊q⌋ : ℚ) then ⌊q⌋ + 1
  else if ⌊q⌋ % 2 = 0 then ⌊q⌋ else ⌊q⌋ + 1

/-- Semantics of pandas `Series.round(2)`: round half to even at two decimals. -/
def round2 (q : ℚ) : ℚ := (rhe (100 * q) : ℚ) / 100

/-- Semantics of pandas `Series.clip(lo, hi)`. -/
def clipQ (lo hi q : ℚ) : ℚ := max lo (min q hi)

lemma rhe_intCast (m : ℤ) : rhe (m : ℚ) = m := by
  unfold rhe
  rw [Int.floor_intCast]
  simp

lemma rhe_le (q : ℚ) : (rhe q : ℚ) ≤ q + 1/2 := by
  unfold rhe
  have hfl : ((⌊q⌋ : ℤ) : ℚ) ≤ q := Int.floor_le q
  have hfu : q < (⌊q⌋ : ℚ) + 1 := Int.lt_floor_add_one q
  split
  · linarith
  · split
    · push_cast
      linarith
    · split <;> · push_cast
                  linarith

lemma le_rhe (q : ℚ) : q - 1/2 ≤ (rhe q : ℚ) := by
  unfold rhe
  have hfl : ((⌊q⌋ : ℤ) : ℚ) ≤ q := Int.floor_le q
  have hfu : q < (⌊q⌋ : ℚ) + 1 := Int.lt_floor_add_one q
  split
  · linarith
  · split
    · push_cast
      linarith
    · split <;> · push_cast
                  linarith

lemma rhe_le_of_le {q : ℚ} {n : ℤ} (h : q ≤ (n : ℚ)) : rhe q ≤ n := by
  have h1 : (rhe q : ℚ) ≤ q + 1/2 := rhe_le q
  have h2 : (rhe q : ℚ) < (n : ℚ) + 1 := by linarith
  have h3 : rhe q < n + 1 := by exact_mod_cast h2
  omega

lemma le_rhe_of_le {q : ℚ} {n : ℤ} (h : (n : ℚ) ≤ q) : n ≤ rhe q := by
  have h1 : q - 1/2 ≤ (rhe q : ℚ) := le_rhe q
  have h2 : (n : ℚ) - 1 < (rhe q : ℚ) := by linarith
  have h3 : n - 1 < rhe q := by exact_mod_cast h2
  omega

lemma round2_le_of_le {q : ℚ} {n : ℤ} (h : q ≤ (n : ℚ)) : round2 q ≤ (n : ℚ) := by
  unfold round2
  have h100 : 100 * q ≤ ((100 * n : ℤ) : ℚ) := by push_cast; linarith
  have := rhe_le_of_le h100
  have hc : (rhe (100 * q) : ℚ) ≤ ((100 * n : ℤ) : ℚ) := by exact_mod_cast this
  push_cast at hc
  linarith

lemma le_round2_of_le {q : ℚ} {n : ℤ} (h : (n : ℚ) ≤ q) : (n : ℚ) ≤ round2 q := by
  unfold round2
  have h100 : ((100 * n : ℤ) : ℚ) ≤ 100 * q := by push_cast; linarith
  have := le_rhe_of_le h100
  have hc : ((100 * n : ℤ) : ℚ) ≤ (rhe (100 * q) : ℚ) := by exact_mod_cast this
  push_cast at hc
  linarith

/-- Evaluation helper: when `100 * q` is an integer, rounding leaves `q` unchanged. -/
lemma round2_eq_div (q : ℚ) (m : ℤ) (h : 100 * q = (m : ℚ)) : round2 q = (m : ℚ) / 100 := by
  unfold round2
  rw [h, rhe_intCast]

lemma round2_fixed (q : ℚ) (m : ℤ) (h : 100 * q = (m : ℚ)) : round2 q = q := by
  rw [round2_eq_div q m h, ← h]
  ring

/-- Evaluation helper for a non-tie rounding-down case. -/
lemma round2_eq_of_lt (q : ℚ) (f : ℤ) (h1 : (f : ℚ) ≤ 100 * q) (h2 : 100 * q - f < 1/2) :
    round2 q = (f : ℚ) / 100 := by
  have hfl : ⌊100 * q⌋ = f := by
    apply Int.floor_eq_iff.mpr
    constructor
    · exact h1
    · linarith
  unfold round2 rhe
  rw [hfl, if_pos (by linarith)]

lemma clipQ_of_mem {lo hi q : ℚ} (h1 : lo ≤ q) (h2 : q ≤ hi) : clipQ lo hi q = q := by
  unfold clipQ
  rw [min_eq_left h2, max_eq_right h1]

lemma clipQ_of_ge {lo hi q : ℚ} (hlh : lo ≤ hi) (h : hi ≤ q) : clipQ lo hi q = hi := by
  unfold clipQ
  rw [min_eq_right h, max_eq_right hlh]

lemma clipQ_of_le {lo hi q : ℚ} (h : q ≤ lo) : clipQ lo hi q = lo := by
  unfold clipQ
  rw [max_eq_left (le_trans (min_le_left q hi) h)]

lemma clipQ_mem (lo hi q : ℚ) (hlh : lo ≤ hi) : lo ≤ clipQ lo hi q ∧ clipQ lo hi q ≤ hi := by
  unfold clipQ
  constructor
  · exact le_max_left lo (min q hi)
  · exact max_le hlh (min_le_right q hi)

/-! ### Data frames

A pandas/geopandas data frame is modelled as a list of columns and a list
of rows; every row carries its index label (`Nat`, as produced by
`gpd.read_file`) and an association list from column names to cells.
A cell is a string, a rational number, or NaN. -/

/-- A single value of a data-frame column. -/
inductive Cell where
  | str (s : String)
  | num (q : ℚ)
  | na
deriving DecidableEq, Repr

/-- A data-frame row: its index label and its cells, keyed by column name. -/
structure Row where
  label : Nat
  cells : List (String × Cell)
deriving DecidableEq, Repr

/-- A data frame: column names plus labelled rows. -/
structure Frame where
  columns : List String
  rows : List Row
deriving DecidableEq, Repr

/-- Library error surfaced by pandas column access. -/
inductive PdError where
  | keyError (column : String)
deriving DecidableEq, Repr

/-- First cell stored under a column name in a row's association list. -/
def lookupCell : List (String × Cell) → String → Option Cell
  | [], _ => none
  | kc :: t, c => if kc.1 = c then some kc.2 else lookupCell t c

/-- Value of a column in a row; NaN when the row has no such cell. -/
def getCell (r : Row) (c : String) : Cell :=
  (lookupCell r.cells c).getD Cell.na

/-- Elementwise pandas equality test: NaN compares unequal to everything. -/
def cellBeq : Cell → Cell → Bool
  | Cell.str a, Cell.str b => a == b
  | Cell.num a, Cell.num b => a == b
  | _, _ => false

/-- Well-formedness of a frame: every row has exactly the frame's columns. -/
def Frame.wfb (f : Frame) : Bool :=
  f.rows.all (fun r => r.cells.map Prod.fst == f.columns)

/-- Key substitution performed by `DataFrame.rename(columns={old: new})`. -/
def substKey (old new k : String) : String := if k = old then new else k

def renameCells (old new : String) (cs : List (String × Cell)) : List (String × Cell) :=
  cs.map (fun kc => (substKey old new kc.1, kc.2))

/-- Semantics of `df.rename(columns={old: new})`: a missing `old` is ignored. -/
def Frame.rename (f : Frame) (old new : String) : Frame :=
  { columns := f.columns.map (substKey old new),
    rows := f.rows.map (fun r => { r with cells := renameCells old new r.cells }) }

/-- Apply a function to every cell stored under a column name. -/
def updateCells (c : String) (h : Cell → Cell) (cs : List (String × Cell)) : List (String × Cell) :=
  cs.map (fun kc => if kc.1 = c then (kc.1, h kc.2) else kc)

/-- Numeric cell map: NaN and non-numeric cells pass through, as in pandas. -/
def mapCellNum (g : ℚ → ℚ) : Cell → Cell
  | Cell.num q => Cell.num (g q)
  | c => c

/-- Overwrite (or append) the cell of one column in a row. -/
def setCellVal (c : String) (v : Cell) (cs : List (String × Cell)) : List (String × Cell) :=
  if c ∈ cs.map Prod.fst then updateCells c (fun _ => v) cs else cs ++ [(c, v)]

/-- Semantics of `df[df[c] == v]`: row filter; missing column raises KeyError. -/
def Frame.filterEq (f : Frame) (c : String) (v : Cell) : Except PdError Frame :=
  if c ∈ f.columns then
    Except.ok { f with rows := f.rows.filter (fun r => cellBeq (getCell r c) v) }
  else Except.error (PdError.keyError c)

/-- Semantics of `df[c] = df[c].map(g)` for a numeric map such as round/clip
applied in place to one column (`df[c] = df[c].round(2)` and `.clip(0, 11)`);
the frame's own index is aligned with itself, so this is row-wise. -/
def Frame.mapNum (f : Frame) (c : String) (g : ℚ → ℚ) : Except PdError Frame :=
  if c ∈ f.columns then
    Except.ok { columns := f.columns,
                rows := f.rows.map (fun r => { r with cells := updateCells c (mapCellNum g) r.cells }) }
  else Except.error (PdError.keyError c)

/-- Column extraction as a labelled series. -/
def colSeries (f : Frame) (c : String) : List (Nat × Cell) :=
  f.rows.map (fun r => (r.label, getCell r c))

/-- Semantics of `df[c]`: missing column raises KeyError. -/
def Frame.getCol (f : Frame) (c : String) : Except PdError (List (Nat × Cell)) :=
  if c ∈ f.columns then Except.ok (colSeries f c) else Except.error (PdError.keyError c)

/-- First value of a labelled series at an index label. -/
def lookupS : List (Nat × Cell) → Nat → Option Cell
  | [], _ => none
  | p :: t, l => if p.1 = l then some p.2 else lookupS t l

/-- Pandas series subtraction `a - b`: the result is indexed by the union of
the two label sets; a label missing on either side, or a non-numeric operand,
yields NaN. This is label alignment, not positional alignment. -/
def seriesSub (a b : List (Nat × Cell)) : List (Nat × Cell) :=
  ((a.map Prod.fst) ++ (b.map Prod.fst).filter (fun l => decide (l ∉ a.map Prod.fst))).map
    (fun l => (l,
      match lookupS a l, lookupS b l with
      | some (Cell.num x), some (Cell.num y) => Cell.num (x - y)
      | _, _ => Cell.na))

/-- Semantics of `df[c] = s` for a series `s`: each row receives the series
value at its own index label, NaN when the label is absent from `s`; a new
column name is appended. -/
def Frame.setColS (f : Frame) (c : String) (s : List (Nat × Cell)) : Frame :=
  { columns := if c ∈ f.columns then f.columns else f.columns ++ [c],
    rows := f.rows.map (fun r => { r with cells := setCellVal c ((lookupS s r.label).getD Cell.na) r.cells }) }

/-- Semantics of `df[dst] = df[src]` (lines 175, 221, 260): copy a column
into a (possibly new) column of the same frame. -/
def Frame.copyCol (f : Frame) (src dst : String) : Except PdError Frame :=
  if src ∈ f.columns then
    Except.ok { columns := if dst ∈ f.columns then f.columns else f.columns ++ [dst],
                rows := f.rows.map (fun r => { r with cells := setCellVal dst (getCell r src) r.cells }) }
  else Except.error (PdError.keyError src)

/-- Index labels of a frame. -/
def Frame.labels (f : Frame) : List Nat := f.rows.map Row.label

/-! ### The per-year column pipeline and the difference pipeline

Lines 161-175 (for 2019) and 206-221 (for 2022) of generate_folium.py run
the same block on the frame read from disk, differing only in the name of
the display column added at the end. -/

/-- Embedding of the per-year data preparation (lines 164-175 / 209-221):
filter on trait_name, rename trait_value to grain_yield, round to two
decimals, clip to [0, 11], and copy into a display column. -/
def processYear (displayCol : String) (f : Frame) : Except PdError Frame :=
  match f.filterEq "trait_name" (Cell.str "Grain Yield [t/ha]") with
  | Except.error e => Except.error e
  | Except.ok f1 =>
    match (f1.rename "trait_value" "grain_yield").mapNum "grain_yield" round2 with
    | Except.error e => Except.error e
    | Except.ok f2 =>
      match f2.mapNum "grain_yield" (clipQ 0 11) with
      | Except.error e => Except.error e
      | Except.ok f3 => f3.copyCol "grain_yield" displayCol

/-- Embedding of the difference computation (lines 252-260): copy the 2022
frame, subtract the 2019 grain_yield series with pandas label alignment,
round to two decimals, and copy into the display column. Note there is no
clipping step here. -/
def diffPipeline (gy2022 gy2019 : Frame) : Except PdError Frame :=
  match gy2022.getCol "grain_yield", gy2019.getCol "grain_yield" with
  | Except.ok s22, Except.ok s19 =>
    match (gy2022.setColS "grain_yield" (seriesSub s22 s19)).mapNum "grain_yield" round2 with
    | Except.error e => Except.error e
    | Except.ok d2 => d2.copyCol "grain_yield" "Ertragsdifferenz (2022-2019) [t/ha]"
  | Except.error e, _ => Except.error e
  | _, Except.error e => Except.error e

/-- First row of a row list whose index label matches. -/
def rowAt : List Row → Nat → Option Row
  | [], _ => none
  | r :: t, l => if r.label = l then some r else rowAt t l

/-- Value of a column of a frame at an index label. -/
def colVal (f : Frame) (c : String) (l : Nat) : Option Cell :=
  (rowAt f.rows l).map (fun r => getCell r c)

/-- Stored grain_yield value at a label, looking through a pipeline result. -/
def storedGY (x : Except PdError Frame) (l : Nat) : Option Cell :=
  match x with
  | Except.ok g => colVal g "grain_yield" l
  | Except.error _ => none

/-- Difference-layer grain_yield at a label, when the pipeline succeeds. -/
def diffStored (gy2022 gy2019 : Frame) (l : Nat) : Option Cell :=
  storedGY (diffPipeline gy2022 gy2019) l

/-- Both per-year pipelines followed by the difference pipeline, projected to
the stored difference value at one label. -/
def yearThenDiff (dc1 dc2 : String) (f2019 f2022 : Frame) (l : Nat) : Option Cell :=
  match processYear dc1 f2019, processYear dc2 f2022 with
  | Except.ok g19, Except.ok g22 => diffStored g22 g19 l
  | _, _ => none

/-! ### The folium document

The folium map is an ordered container of children. The script adds, in
order: the custom style element (line 158), then for each of the three
choropleths the layer itself, its extracted branca colormap, and a
BindColormap element (lines 201-203, 247-249, 287-289), and finally the
layer control (line 292). -/

/-- One child of the folium map root. -/
inductive Child where
  | style
  | layer (name : String) (visible : Bool) (frame : Frame)
  | colormap (id : Nat)
  | bindColormap (layerName : String) (id : Nat)
  | layerControl (collapsed : Bool)
deriving DecidableEq, Repr

/-- Data of one registered choropleth layer: display name, folium `show`
flag, and the underlying feature collection. -/
structure LayerSpec where
  name : String
  visible : Bool
  frame : Frame
deriving DecidableEq, Repr

/-- The add_child calls for one choropleth: the layer, its colormap, and the
BindColormap element binding the two. -/
def addLayerGroup (cs : List Child) (idx : Nat) (s : LayerSpec) : List Child :=
  cs ++ [Child.layer s.name s.visible s.frame, Child.colormap idx, Child.bindColormap s.name idx]

/-- Register a list of layers in order, numbering their colormaps. -/
def registerAll (cs : List Child) (specs : List LayerSpec) (idx : Nat) : List Child :=
  match specs with
  | [] => cs
  | s :: rest => registerAll (addLayerGroup cs idx s) rest (idx + 1)

/-- Append the layer control (line 292, `LayerControl(collapsed=False)`). -/
def finalizeDoc (cs : List Child) : List Child := cs ++ [Child.layerControl false]

/-- The document assembled from a list of layer specs: the style element, one
group per layer in registration order, then the layer control. -/
def buildDocument (specs : List LayerSpec) : List Child :=
  finalizeDoc (registerAll [Child.style] specs 0)

/-- Registered layers of a document with their `show` flags, in order. -/
def layerEntries (cs : List Child) : List (String × Bool) :=
  cs.filterMap (fun c => match c with
    | Child.layer n v _ => some (n, v)
    | _ => none)

/-- Names the layer control displays as checked: folium's LayerControl checks
exactly the overlays whose `show` flag is true. -/
def controlChecked (cs : List Child) : List String :=
  (layerEntries cs).filterMap (fun e => if e.2 then some e.1 else none)

/-- Number of legend (colormap) children of a document. -/
def countLegends (cs : List Child) : Nat :=
  cs.countP (fun c => match c with
    | Child.colormap _ => true
    | _ => false)

/-- Number of legend-binding children of a document. -/
def countBindings (cs : List Child) : Nat :=
  cs.countP (fun c => match c with
    | Child.bindColormap _ _ => true
    | _ => false)

/-- Number of layer-control children of a document. -/
def countControls (cs : List Child) : Nat :=
  cs.countP (fun c => match c with
    | Child.layerControl _ => true
    | _ => false)

/-! ### The whole generation run -/

/-- An I/O failure of `gpd.read_file` or of writing the output. -/
inductive IOErr where
  | fileNotFound (path : String)
  | unreadable (path : String)
deriving DecidableEq, Repr

/-- A failure anywhere inside generate_folium_map: either an I/O error of a
read, propagated unchanged, or a pandas error from a column operation. -/
inductive GenError where
  | ioPart (e : IOErr)
  | pdPart (e : PdError)
deriving DecidableEq, Repr

/-- Embedding of generate_folium_map (lines 146-293). The two `read_file`
results are passed in as `Except` values; the function assembles the full
document: style element, the 2019 layer group (show=True), the 2022 layer
group (show=False), the difference layer group (show=False), and the layer
control. The source interleaves the add_child calls with the reads
(lines 161-289), which yields exactly this child order. -/
def generate_folium_map (read2019 read2022 : Except IOErr Frame) : Except GenError (List Child) :=
  match read2019 with
  | Except.error e => Except.error (GenError.ioPart e)
  | Except.ok raw2019 =>
    match processYear "Ertrag 2019 t/ha" raw2019 with
    | Except.error e => Except.error (GenError.pdPart e)
    | Except.ok gy2019 =>
      match read2022 with
      | Except.error e => Except.error (GenError.ioPart e)
      | Except.ok raw2022 =>
        match processYear "Ertrag 2022 t/ha" raw2022 with
        | Except.error e => Except.error (GenError.pdPart e)
        | Except.ok gy2022 =>
          match diffPipeline gy2022 gy2019 with
          | Except.error e => Except.error (GenError.pdPart e)
          | Except.ok gyDiff =>
            Except.ok (buildDocument
              [⟨"Ertrag 2019", true, gy2019⟩,
               ⟨"Ertrag 2022", false, gy2022⟩,
               ⟨"Ertragsdifferenz (2022-2019)", false, gyDiff⟩])

/-- The output file after a run: `m.save(...)` is the last statement of
generate_folium_map (line 293), so the file exists only when every prior
step succeeded. -/
structure FS where
  outputFile : Option (List Child)
deriving DecidableEq, Repr

/-- A full run: generation followed by the save of line 293. On any failure
the exception propagates and no file is written. -/
def run_generate (read2019 read2022 : Except IOErr Frame) : Except GenError Unit × FS :=
  match generate_folium_map read2019 read2022 with
  | Except.ok doc => (Except.ok (), ⟨some doc⟩)
  | Except.error e => (Except.error e, ⟨none⟩)

/-! ### Serialization of the document

The HTML serialization itself is performed by folium (`m.save`, line 293)
and is not part of this repository. -/

/-- One structural element of the serialized artifact. -/
inductive Tag where
  | styleT
  | layerT (name : String) (checked : Bool)
  | legendT
  | bindT (layerName : String)
  | controlT
deriving DecidableEq, Repr

/-- Modelled from the spec: folium's HTML serialization (`m.save`, line 293)
is external to the repository; the spec's round-trip property treats the
artifact as a structural document, so serialization is modelled as emitting
one structural element per document child, in document order. -/
def serializeDoc (cs : List Child) : List Tag :=
  cs.map (fun c => match c with
    | Child.style => Tag.styleT
    | Child.layer n v _ => Tag.layerT n v
    | Child.colormap _ => Tag.legendT
    | Child.bindColormap n _ => Tag.bindT n
    | Child.layerControl _ => Tag.controlT)

/-- Structural summary recovered from a serialized artifact. -/
structure DocSummary where
  layers : List (String × Bool)
  legends : Nat
  hasControl : Bool
deriving DecidableEq, Repr

/-- Modelled from the spec: re-parse a serialized artifact for structural
well-formedness. The visibility control, when present, must be the final
element; layer and legend entries are collected in order. -/
def parseDoc : List Tag → Option DocSummary
  | [] => some ⟨[], 0, false⟩
  | Tag.controlT :: rest => if rest.isEmpty then some ⟨[], 0, true⟩ else none
  | Tag.layerT n v :: rest => (parseDoc rest).map (fun d => { d with layers := (n, v) :: d.layers })
  | Tag.legendT :: rest => (parseDoc rest).map (fun d => { d with legends := d.legends + 1 })
  | Tag.styleT :: rest => parseDoc rest
  | Tag.bindT _ :: rest => parseDoc rest

/-! ### The BindColormap template

Class BindColormap (lines 17-41) renders three JavaScript statements:
an unconditional `display = 'block'` executed at initial render (line 31),
an overlayadd handler showing the legend when the bound layer is added
(lines 32-35), and an overlayremove handler hiding it when the bound layer
is removed (lines 36-39). The handlers test the event's layer against the
bound layer. -/

/-- Visibility state of one layer and its bound legend. -/
structure BindState where
  layerVisible : Bool
  legendVisible : Bool
deriving DecidableEq, Repr

/-- A leaflet layer-control event, carrying the name of the toggled layer. -/
inductive MapEvent where
  | overlayadd (layerName : String)
  | overlayremove (layerName : String)
deriving DecidableEq, Repr

/-- Layer a map event refers to. -/
def eventLayer : MapEvent → String
  | MapEvent.overlayadd n => n
  | MapEvent.overlayremove n => n

/-- State after initial render: the layer shows according to its folium
`show` flag, while line 31 sets the legend's display to 'block'
unconditionally. -/
def bindInit (showFlag : Bool) : BindState :=
  { layerVisible := showFlag, legendVisible := true }

/-- Effect of one event under the two installed handlers (lines 32-39):
events for other layers leave both fields unchanged. -/
def bindStep (bound : String) (st : BindState) (e : MapEvent) : BindState :=
  match e with
  | MapEvent.overlayadd n =>
      if n = bound then { layerVisible := true, legendVisible := true } else st
  | MapEvent.overlayremove n =>
      if n = bound then { layerVisible := false, legendVisible := false } else st

/-- State after initial render followed by a sequence of events. -/
def bindRun (bound : String) (showFlag : Bool) (es : List MapEvent) : BindState :=
  es.foldl (bindStep bound) (bindInit showFlag)

/-! ### Derived definitions used by the characterization lemmas -/

/-- Row filter of lines 164-165 / 209-210. -/
def yearFilter (rs : List Row) : List Row :=
  rs.filter (fun r => cellBeq (getCell r "trait_name") (Cell.str "Grain Yield [t/ha]"))

/-- Cell transformation a surviving row undergoes: rename, round, clip,
copy into the display column. -/
def yearRowCells (dc : String) (cs : List (String × Cell)) : List (String × Cell) :=
  setCellVal dc
    ((lookupCell (updateCells "grain_yield" (mapCellNum (clipQ 0 11))
        (updateCells "grain_yield" (mapCellNum round2)
          (renameCells "trait_value" "grain_yield" cs))) "grain_yield").getD Cell.na)
    (updateCells "grain_yield" (mapCellNum (clipQ 0 11))
      (updateCells "grain_yield" (mapCellNum round2)
        (renameCells "trait_value" "grain_yield" cs)))

/-- Columns of the per-year output frame. -/
def yearColumns (dc : String) (cols : List String) : List String :=
  if dc ∈ cols.map (substKey "trait_value" "grain_yield") then
    cols.map (substKey "trait_value" "grain_yield")
  else cols.map (substKey "trait_value" "grain_yield") ++ [dc]

/-- Cell transformation of a difference-frame row: assign the aligned series
value, round, copy into the display column. -/
def diffRowCells (sub : List (Nat × Cell)) (r : Row) : List (String × Cell) :=
  setCellVal "Ertragsdifferenz (2022-2019) [t/ha]"
    ((lookupCell (updateCells "grain_yield" (mapCellNum round2)
        (setCellVal "grain_yield" ((lookupS sub r.label).getD Cell.na) r.cells))
      "grain_yield").getD Cell.na)
    (updateCells "grain_yield" (mapCellNum round2)
      (setCellVal "grain_yield" ((lookupS sub r.label).getD Cell.na) r.cells))

/-- Columns of the difference output frame. -/
def diffColumns (cols : List String) : List String :=
  if "Ertragsdifferenz (2022-2019) [t/ha]" ∈ cols then cols
  else cols ++ ["Ertragsdifferenz (2022-2019) [t/ha]"]

/-- The aligned series `diff['grain_yield'] - gy2019['grain_yield']`. -/
def diffSub (gy2022 gy2019 : Frame) : List (Nat × Cell) :=
  seriesSub (colSeries gy2022 "grain_yield") (colSeries gy2019 "grain_yield")

/-- Children emitted for a list of layer specs, starting at a colormap id. -/
def emittedChildren : List LayerSpec → Nat → List Child
  | [], _ => []
  | s :: rest, i =>
    Child.layer s.name s.visible s.frame :: Child.colormap i :: Child.bindColormap s.name i ::
      emittedChildren rest (i + 1)

/-! ### Concrete sample data -/

/-- Columns of the GeoPackage frames the script reads. -/
def inputColumns : List String := ["_uid0_", "trait_name", "trait_value"]

/-- An input row of the grain-yield collections. -/
def sampleRow (l : Nat) (uid : ℚ) (v : ℚ) : Row :=
  ⟨l, [("_uid0_", Cell.num uid), ("trait_name", Cell.str "Grain Yield [t/ha]"),
       ("trait_value", Cell.num v)]⟩

/-- An input collection with the expected columns but no features. -/
def inEmpty : Frame := ⟨inputColumns, []⟩

/-- An input collection lacking the trait columns. -/
def noTraitFrame : Frame := ⟨["_uid0_"], []⟩

/-- Sample 2019 input: one parcel with raw yield 4.50 t/ha. -/
def in2019 : Frame := ⟨inputColumns, [sampleRow 7 1 (9/2)]⟩

/-- Sample 2022 input: the same parcel with raw yield 3.20 t/ha. -/
def in2022 : Frame := ⟨inputColumns, [sampleRow 7 1 (16/5)]⟩

/-- Sample input with raw yield 12.4, above the clipping range. -/
def inHigh : Frame := ⟨inputColumns, [sampleRow 0 1 (62/5)]⟩

/-- Sample input with raw yield -0.3, below the clipping range. -/
def inLow : Frame := ⟨inputColumns, [sampleRow 0 1 (-3/10)]⟩

/-- Sample input with raw yield 3.14159. -/
def inPi : Frame := ⟨inputColumns, [sampleRow 0 1 (314159/100000)]⟩

/-- A row of an already-processed frame. -/
def gyRow (l : Nat) (v : ℚ) : Row := ⟨l, [("grain_yield", Cell.num v)]⟩

/-- Processed 2019 sample collection: stored value 4.50 at label 7. -/
def gy19Sample : Frame := ⟨["grain_yield"], [gyRow 7 (9/2)]⟩

/-- Processed 2022 sample collection: stored value 3.20 at label 7. -/
def gy22Sample : Frame := ⟨["grain_yield"], [gyRow 7 (16/5)]⟩

/-- Processed 2019 sample whose only label 9 is absent from the 2022 one. -/
def gy19Disjoint : Frame := ⟨["grain_yield"], [gyRow 9 3]⟩

/-- Processed 2022 sample whose only label 7 is absent from the 2019 one. -/
def gy22Disjoint : Frame := ⟨["grain_yield"], [gyRow 7 5]⟩

/-- Document generated from two structurally valid empty collections. -/
def demoDoc : List Child :=
  match generate_folium_map (Except.ok inEmpty) (Except.ok inEmpty) with
  | Except.ok doc => doc
  | Except.error _ => []

/-! ### Lookup and row-access lemmas -/

lemma lookupCell_isSome_iff (cs : List (String × Cell)) (c : String) :
    (lookupCell cs c).isSome = true ↔ c ∈ cs.map Prod.fst := by
  induction cs with
  | nil => simp [lookupCell]
  | cons kc t ih =>
    by_cases hk : kc.1 = c
    · simp [lookupCell, hk]
    · simp [lookupCell, hk, ih, Ne.symm hk]

lemma lookupCell_updateCells_self (c : String) (h : Cell → Cell) (cs : List (String × Cell)) :
    lookupCell (updateCells c h cs) c = (lookupCell cs c).map h := by
  induction cs with
  | nil => simp [lookupCell, updateCells]
  | cons kc t ih =>
    by_cases hk : kc.1 = c
    · simp [updateCells, lookupCell, hk]
    · simp only [updateCells, List.map_cons, if_neg hk]
      simpa [lookupCell, hk] using ih

lemma lookupCell_updateCells_ne (c d : String) (h : Cell → Cell) (cs : List (String × Cell))
    (hne : d ≠ c) : lookupCell (updateCells d h cs) c = lookupCell cs c := by
  induction cs with
  | nil => simp [lookupCell, updateCells]
  | cons kc t ih =>
    by_cases hk : kc.1 = d
    · have : kc.1 ≠ c := by rw [hk]; exact hne
      simp only [updateCells, List.map_cons, if_pos hk]
      simpa [lookupCell, this] using ih
    · by_cases hkc : kc.1 = c
      · simp [updateCells, lookupCell, hk, hkc, Ne.symm hne]
      · simp only [updateCells, List.map_cons, if_neg hk]
        simpa [lookupCell, hkc] using ih

lemma lookupCell_append (cs ds : List (String × Cell)) (c : String) :
    lookupCell (cs ++ ds) c =
      match lookupCell cs c with
      | some v => some v
      | none => lookupCell ds c := by
  induction cs with
  | nil => simp [lookupCell]
  | cons kc t ih =>
    by_cases hk : kc.1 = c
    · simp [lookupCell, hk]
    · simpa [lookupCell, hk] using ih

lemma lookupCell_setCellVal_self (c : String) (v : Cell) (cs : List (String × Cell)) :
    lookupCell (setCellVal c v cs) c = some v := by
  unfold setCellVal
  split
  · rw [lookupCell_updateCells_self]
    have hs : (lookupCell cs c).isSome = true := (lookupCell_isSome_iff cs c).mpr (by assumption)
    rcases hcc : lookupCell cs c with _ | x
    · rw [hcc] at hs; simp at hs
    · simp
  · have hnone : lookupCell cs c = none := by
      rcases hcc : lookupCell cs c with _ | x
      · rfl
      · exact absurd ((lookupCell_isSome_iff cs c).mp (by simp [hcc])) (by assumption)
    rw [lookupCell_append, hnone]
    simp [lookupCell]

lemma lookupCell_setCellVal_ne (c d : String) (v : Cell) (cs : List (String × Cell))
    (hne : d ≠ c) : lookupCell (setCellVal d v cs) c = lookupCell cs c := by
  unfold setCellVal
  split
  · exact lookupCell_updateCells_ne c d (fun _ => v) cs hne
  · rw [lookupCell_append]
    rcases hcc : lookupCell cs c with _ | x
    · simp [lookupCell, hne]
    · simp

lemma lookupCell_renameCells (old new : String) (cs : List (String × Cell))
    (hnone : lookupCell cs new = none) :
    lookupCell (renameCells old new cs) new = lookupCell cs old := by
  induction cs with
  | nil => simp [renameCells, lookupCell]
  | cons kc t ih =>
    have hhead : kc.1 ≠ new := by
      intro h
      simp [lookupCell, h] at hnone
    have htail : lookupCell t new = none := by
      simpa [lookupCell, hhead] using hnone
    by_cases hk : kc.1 = old
    · simp [renameCells, lookupCell, substKey, hk]
    · simp only [renameCells, List.map_cons]
      have : substKey old new kc.1 = kc.1 := by simp [substKey, hk]
      rw [this]
      simpa [lookupCell, hhead, hk] using ih htail

lemma rowAt_map (T : Row → Row) (hT : ∀ r, (T r).label = r.label) (rs : List Row) (l : Nat) :
    rowAt (rs.map T) l = (rowAt rs l).map T := by
  induction rs with
  | nil => simp [rowAt]
  | cons r t ih =>
    by_cases hl : r.label = l
    · simp [rowAt, hT, hl]
    · simpa [rowAt, hT, hl] using ih

lemma rowAt_filter (p : Row → Bool) (rs : List Row) (l : Nat) (r : Row)
    (hx : rowAt rs l = some r) (hp : p r = true) :
    rowAt (rs.filter p) l = some r := by
  induction rs with
  | nil => simp [rowAt] at hx
  | cons a t ih =>
    by_cases hl : a.label = l
    · rw [rowAt, if_pos hl] at hx
      cases hx
      rw [List.filter_cons, if_pos hp, rowAt, if_pos hl]
    · rw [rowAt, if_neg hl] at hx
      rw [List.filter_cons]
      split
      · rw [rowAt, if_neg hl]
        exact ih hx
      · exact ih hx

lemma lookupS_mapLabel (v : Nat → Cell) (L : List Nat) (l : Nat) :
    lookupS (L.map (fun x => (x, v x))) l = if l ∈ L then some (v l) else none := by
  induction L with
  | nil => simp [lookupS]
  | cons a t ih =>
    by_cases ha : a = l
    · simp [lookupS, ha]
    · simp [lookupS, ha, ih, Ne.symm ha]

lemma lookupS_colSeries (f : Frame) (c : String) (l : Nat) :
    lookupS (colSeries f c) l = colVal f c l := by
  unfold colSeries colVal
  induction f.rows with
  | nil => simp [lookupS, rowAt]
  | cons r t ih =>
    by_cases hl : r.label = l
    · simp [lookupS, rowAt, hl]
    · simpa [lookupS, rowAt, hl] using ih

lemma rowAt_mem {rs : List Row} {l : Nat} {r : Row} (h : rowAt rs l = some r) : r ∈ rs := by
  induction rs with
  | nil => simp [rowAt] at h
  | cons a t ih =>
    by_cases hl : a.label = l
    · rw [rowAt, if_pos hl] at h
      injection h with h2
      subst h2
      exact List.mem_cons_self _ _
    · rw [rowAt, if_neg hl] at h
      exact List.mem_cons_of_mem a (ih h)

lemma rowAt_label {rs : List Row} {l : Nat} {r : Row} (h : rowAt rs l = some r) : r.label = l := by
  induction rs with
  | nil => simp [rowAt] at h
  | cons a t ih =>
    by_cases hl : a.label = l
    · rw [rowAt, if_pos hl] at h
      injection h with h2
      subst h2
      exact hl
    · rw [rowAt, if_neg hl] at h
      exact ih h

lemma rowAt_none {rs : List Row} {l : Nat} (h : l ∉ rs.map Row.label) : rowAt rs l = none := by
  induction rs with
  | nil => simp [rowAt]
  | cons a t ih =>
    simp only [List.map_cons, List.mem_cons] at h
    push_neg at h
    rw [rowAt, if_neg (fun hc => h.1 hc.symm)]
    exact ih h.2

lemma colSeries_fst (f : Frame) (c : String) :
    (colSeries f c).map Prod.fst = f.labels := by
  simp [colSeries, Frame.labels, List.map_map]

lemma storedGY_isOk {x : Except PdError Frame} {l : Nat} {c : Cell}
    (h : storedGY x l = some c) : x.isOk = true := by
  cases x with
  | ok g => rfl
  | error e => simp [storedGY] at h

lemma getCell_eq_some {r : Row} {c : String} {x : Cell} (h : getCell r c = x) (hx : x ≠ Cell.na) :
    lookupCell r.cells c = some x := by
  unfold getCell at h
  rcases hl : lookupCell r.cells c with _ | y
  · rw [hl] at h
    simp at h
    exact absurd h.symm hx
  · rw [hl] at h
    simp at h
    rw [h]

/-! ### Characterization of the per-year pipeline -/

lemma processYear_eq (dc : String) (f : Frame)
    (h1 : "trait_name" ∈ f.columns)
    (h2 : "grain_yield" ∈ f.columns.map (substKey "trait_value" "grain_yield")) :
    processYear dc f = Except.ok
      { columns := yearColumns dc f.columns,
        rows := (yearFilter f.rows).map (fun r => { r with cells := yearRowCells dc r.cells }) } := by
  simp only [processYear, Frame.filterEq, if_pos h1, Frame.rename, Frame.mapNum, Frame.copyCol,
    List.map_map, h2, if_pos, reduceIte, yearColumns, yearFilter, yearRowCells, getCell]
  rfl

lemma processYear_keyError_trait (dc : String) (f : Frame)
    (h1 : "trait_name" ∉ f.columns) :
    processYear dc f = Except.error (PdError.keyError "trait_name") := by
  simp [processYear, Frame.filterEq, h1]

lemma processYear_keyError_gy (dc : String) (f : Frame)
    (h1 : "trait_name" ∈ f.columns)
    (h2 : "grain_yield" ∉ f.columns.map (substKey "trait_value" "grain_yield")) :
    processYear dc f = Except.error (PdError.keyError "grain_yield") := by
  simp [processYear, Frame.filterEq, h1, Frame.rename, Frame.mapNum, h2]

/-- A frame's columns always carry grain_yield after a successful pipeline. -/
lemma yearColumns_mem (dc : String) (cols : List String)
    (h2 : "grain_yield" ∈ cols.map (substKey "trait_value" "grain_yield")) :
    "grain_yield" ∈ yearColumns dc cols := by
  unfold yearColumns
  split
  · exact h2
  · exact List.mem_append_left _ h2

/-- Workhorse: value of the stored grain_yield column of the per-year
pipeline at a label whose first row passes the trait_name filter and holds
a numeric trait_value. -/
lemma processYear_storedGY (dc : String) (f : Frame)
    (hwf : f.wfb = true) (hnc : "grain_yield" ∉ f.columns)
    (h1 : "trait_name" ∈ f.columns) (htv : "trait_value" ∈ f.columns)
    (l : Nat) (r : Row) (hr : rowAt f.rows l = some r)
    (htn : getCell r "trait_name" = Cell.str "Grain Yield [t/ha]")
    (v : ℚ) (hv : getCell r "trait_value" = Cell.num v) :
    storedGY (processYear dc f) l = some (Cell.num (clipQ 0 11 (round2 v))) := by
  have h2 : "grain_yield" ∈ f.columns.map (substKey "trait_value" "grain_yield") := by
    refine List.mem_map.mpr ⟨"trait_value", htv, ?_⟩
    simp [substKey]
  rw [processYear_eq dc f h1 h2]
  have hrmem : r ∈ f.rows := rowAt_mem hr
  have hkeys : r.cells.map Prod.fst = f.columns := by
    have := List.all_eq_true.mp hwf r hrmem
    exact eq_of_beq this
  have hnone : lookupCell r.cells "grain_yield" = none := by
    rcases hlc : lookupCell r.cells "grain_yield" with _ | x
    · rfl
    · have := (lookupCell_isSome_iff r.cells "grain_yield").mp (by simp [hlc])
      rw [hkeys] at this
      exact absurd this hnc
  have hfilter : rowAt (yearFilter f.rows) l = some r := by
    apply rowAt_filter _ _ _ _ hr
    rw [htn]
    simp [cellBeq]
  have hmap : rowAt ((yearFilter f.rows).map
        (fun r => { r with cells := yearRowCells dc r.cells })) l
      = some { r with cells := yearRowCells dc r.cells } := by
    rw [rowAt_map (fun r => { r with cells := yearRowCells dc r.cells }) (fun _ => rfl), hfilter]
    rfl
  simp only [storedGY, colVal, hmap, Option.map_some']
  have hv' : lookupCell r.cells "trait_value" = some (Cell.num v) :=
    getCell_eq_some hv (by simp)
  have s1 : lookupCell (renameCells "trait_value" "grain_yield" r.cells) "grain_yield"
      = some (Cell.num v) := by
    rw [lookupCell_renameCells _ _ _ hnone, hv']
  have s2 : lookupCell (updateCells "grain_yield" (mapCellNum round2)
      (renameCells "trait_value" "grain_yield" r.cells)) "grain_yield"
      = some (Cell.num (round2 v)) := by
    rw [lookupCell_updateCells_self, s1]
    rfl
  have s3 : lookupCell (updateCells "grain_yield" (mapCellNum (clipQ 0 11))
      (updateCells "grain_yield" (mapCellNum round2)
        (renameCells "trait_value" "grain_yield" r.cells))) "grain_yield"
      = some (Cell.num (clipQ 0 11 (round2 v))) := by
    rw [lookupCell_updateCells_self, s2]
    rfl
  unfold getCell yearRowCells
  by_cases hdc : dc = "grain_yield"
  · rw [hdc, lookupCell_setCellVal_self, s3]
    rfl
  · rw [lookupCell_setCellVal_ne _ _ _ _ hdc, s3]
    rfl

/-! ### Characterization of the difference pipeline -/

lemma diffPipeline_eq (gy2022 gy2019 : Frame)
    (h22 : "grain_yield" ∈ gy2022.columns) (h19 : "grain_yield" ∈ gy2019.columns) :
    diffPipeline gy2022 gy2019 = Except.ok
      { columns := diffColumns gy2022.columns,
        rows := gy2022.rows.map (fun r =>
          { r with cells := diffRowCells (diffSub gy2022 gy2019) r }) } := by
  simp only [diffPipeline, Frame.getCol, if_pos h22, if_pos h19, Frame.setColS, Frame.mapNum,
    Frame.copyCol, List.map_map, diffColumns, diffRowCells, diffSub, getCell]
  rfl

lemma diffStored_eq (gy2022 gy2019 : Frame)
    (h22 : "grain_yield" ∈ gy2022.columns) (h19 : "grain_yield" ∈ gy2019.columns)
    (l : Nat) (r : Row) (hrow : rowAt gy2022.rows l = some r) :
    diffStored gy2022 gy2019 l = some (mapCellNum round2
      (match colVal gy2022 "grain_yield" l, colVal gy2019 "grain_yield" l with
       | some (Cell.num x), some (Cell.num y) => Cell.num (x - y)
       | _, _ => Cell.na)) := by
  rw [diffStored, diffPipeline_eq _ _ h22 h19]
  have hmap : rowAt (gy2022.rows.map
        (fun r => { r with cells := diffRowCells (diffSub gy2022 gy2019) r })) l
      = some { r with cells := diffRowCells (diffSub gy2022 gy2019) r } := by
    rw [rowAt_map (fun r => { r with cells := diffRowCells (diffSub gy2022 gy2019) r })
      (fun _ => rfl), hrow]
    rfl
  simp only [storedGY, colVal, hmap, Option.map_some']
  have hlmem : l ∈ (colSeries gy2022 "grain_yield").map Prod.fst := by
    rw [colSeries_fst]
    exact List.mem_map.mpr ⟨r, rowAt_mem hrow, rowAt_label hrow⟩
  have hsub : lookupS (diffSub gy2022 gy2019) r.label
      = some (match colVal gy2022 "grain_yield" l, colVal gy2019 "grain_yield" l with
              | some (Cell.num x), some (Cell.num y) => Cell.num (x - y)
              | _, _ => Cell.na) := by
    rw [rowAt_label hrow]
    unfold diffSub seriesSub
    rw [lookupS_mapLabel, if_pos (List.mem_append_left _ hlmem)]
    rw [lookupS_colSeries, lookupS_colSeries]
  unfold getCell diffRowCells
  rw [lookupCell_setCellVal_ne _ _ _ _ (by decide),
    lookupCell_updateCells_self, lookupCell_setCellVal_self, hsub]
  rfl

/-! ### Document assembly lemmas -/

lemma registerAll_eq (specs : List LayerSpec) : ∀ (cs : List Child) (i : Nat),
    registerAll cs specs i = cs ++ emittedChildren specs i := by
  induction specs with
  | nil =>
    intro cs i
    simp [registerAll, emittedChildren]
  | cons s rest ih =>
    intro cs i
    simp [registerAll, emittedChildren, addLayerGroup, ih, List.append_assoc]

lemma layerEntries_append (cs ds : List Child) :
    layerEntries (cs ++ ds) = layerEntries cs ++ layerEntries ds := by
  simp [layerEntries]

lemma layerEntries_emitted (specs : List LayerSpec) : ∀ i,
    layerEntries (emittedChildren specs i) = specs.map (fun s => (s.name, s.visible)) := by
  induction specs with
  | nil =>
    intro i
    simp [emittedChildren, layerEntries]
  | cons s rest ih =>
    intro i
    simp [emittedChildren, layerEntries] at ih ⊢
    exact ih (i + 1)

lemma countLegends_emitted (specs : List LayerSpec) : ∀ i,
    countLegends (emittedChildren specs i) = specs.length := by
  induction specs with
  | nil =>
    intro i
    simp [emittedChildren, countLegends]
  | cons s rest ih =>
    intro i
    simp [emittedChildren, countLegends] at ih ⊢
    exact ih (i + 1)

lemma countBindings_emitted (specs : List LayerSpec) : ∀ i,
    countBindings (emittedChildren specs i) = specs.length := by
  induction specs with
  | nil =>
    intro i
    simp [emittedChildren, countBindings]
  | cons s rest ih =>
    intro i
    simp [emittedChildren, countBindings] at ih ⊢
    exact ih (i + 1)

lemma countControls_emitted (specs : List LayerSpec) : ∀ i,
    countControls (emittedChildren specs i) = 0 := by
  induction specs with
  | nil =>
    intro i
    simp [emittedChildren, countControls]
  | cons s rest ih =>
    intro i
    simp [emittedChildren, countControls] at ih ⊢
    exact ih (i + 1)

lemma buildDocument_eq (specs : List LayerSpec) :
    buildDocument specs =
      Child.style :: emittedChildren specs 0 ++ [Child.layerControl false] := by
  simp [buildDocument, finalizeDoc, registerAll_eq]

lemma parseDoc_emitted (specs : List LayerSpec) : ∀ i,
    parseDoc (serializeDoc (emittedChildren specs i) ++ [Tag.controlT]) =
      some ⟨specs.map (fun s => (s.name, s.visible)), specs.length, true⟩ := by
  induction specs with
  | nil =>
    intro i
    simp [emittedChildren, serializeDoc, parseDoc]
  | cons s rest ih =>
    intro i
    simp only [emittedChildren, serializeDoc, List.map_cons, List.cons_append, parseDoc,
      List.append_eq]
    simp only [serializeDoc] at ih
    rw [ih (i + 1)]
    simp

/-- Shape of any successfully generated document. -/
lemma generate_ok_eq (read2019 read2022 : Except IOErr Frame) (doc : List Child)
    (h : generate_folium_map read2019 read2022 = Except.ok doc) :
    ∃ gy2019 gy2022 gyDiff, doc = buildDocument
      [⟨"Ertrag 2019", true, gy2019⟩,
       ⟨"Ertrag 2022", false, gy2022⟩,
       ⟨"Ertragsdifferenz (2022-2019)", false, gyDiff⟩] := by
  unfold generate_folium_map at h
  split at h
  · exact absurd h (by simp)
  · split at h
    · exact absurd h (by simp)
    · split at h
      · exact absurd h (by simp)
      · split at h
        · exact absurd h (by simp)
        · split at h
          · exact absurd h (by simp)
          · injection h with h2
            exact ⟨_, _, _, h2.symm⟩

lemma parseDoc_style (rest : List Tag) : parseDoc (Tag.styleT :: rest) = parseDoc rest := rfl

lemma layerEntries_cons (c : Child) (cs : List Child) :
    layerEntries (c :: cs)
      = (match c with | Child.layer n v _ => [(n, v)] | _ => []) ++ layerEntries cs := by
  cases c <;> simp [layerEntries]

lemma countLegends_append (cs ds : List Child) :
    countLegends (cs ++ ds) = countLegends cs + countLegends ds := by
  simp [countLegends, List.countP_append]

lemma countLegends_cons (c : Child) (cs : List Child) :
    countLegends (c :: cs)
      = countLegends cs + (match c with | Child.colormap _ => 1 | _ => 0) := by
  cases c <;> simp [countLegends, List.countP_cons]

lemma countBindings_append (cs ds : List Child) :
    countBindings (cs ++ ds) = countBindings cs + countBindings ds := by
  simp [countBindings, List.countP_append]

lemma countBindings_cons (c : Child) (cs : List Child) :
    countBindings (c :: cs)
      = countBindings cs + (match c with | Child.bindColormap _ _ => 1 | _ => 0) := by
  cases c <;> simp [countBindings, List.countP_cons]

lemma countControls_append (cs ds : List Child) :
    countControls (cs ++ ds) = countControls cs + countControls ds := by
  simp [countControls, List.countP_append]

lemma countControls_cons (c : Child) (cs : List Child) :
    countControls (c :: cs)
      = countControls cs + (match c with | Child.layerControl _ => 1 | _ => 0) := by
  cases c <;> simp [countControls, List.countP_cons]

lemma processYear_gy_mem {dc : String} {f g : Frame}
    (h1 : "trait_name" ∈ f.columns)
    (h2 : "grain_yield" ∈ f.columns.map (substKey "trait_value" "grain_yield"))
    (hg : processYear dc f = Except.ok g) : "grain_yield" ∈ g.columns := by
  rw [processYear_eq dc f h1 h2] at hg
  injection hg with hg2
  rw [← hg2]
  exact yearColumns_mem dc f.columns h2

/-! ### Claims -/

/-- Claim C1, counterexample: the legend-visibility invariant fails at the
initial render. For a layer registered with show=False (the 2022 layer,
line 233, and the difference layer, line 272), line 31 of the BindColormap
template sets the legend display to 'block' unconditionally, so immediately
after the initial render the legend is visible while its bound layer is
hidden. -/
theorem C1_counterexample :
    (bindRun "Ertrag 2022" false []).legendVisible = true
    ∧ (bindRun "Ertrag 2022" false []).layerVisible = false
    ∧ ¬ ((bindRun "Ertrag 2022" false []).legendVisible
          = (bindRun "Ertrag 2022" false []).layerVisible) := by
  refine ⟨rfl, rfl, ?_⟩
  simp [bindRun, bindInit]

/-- Claim C1, amended: the binding installs handlers so that on layer-shown
the legend display becomes visible and on layer-hidden it becomes hidden;
hence after any event sequence whose last event concerns the bound layer
the legend is visible iff the layer is. At initial render, however, the
legend display is set to visible unconditionally (line 31), so at that
point the equivalence holds iff the layer's initial visibility flag is
true. -/
theorem C1_legend_binding (bound : String) (showFlag : Bool) (st : BindState)
    (es : List MapEvent) (e : MapEvent) (he : eventLayer e = bound) :
    (bindStep bound st (MapEvent.overlayadd bound)).legendVisible = true
    ∧ (bindStep bound st (MapEvent.overlayremove bound)).legendVisible = false
    ∧ (bindRun bound showFlag []).legendVisible = true
    ∧ ((bindRun bound showFlag []).legendVisible = (bindRun bound showFlag []).layerVisible
        ↔ showFlag = true)
    ∧ (bindRun bound showFlag (es ++ [e])).legendVisible
        = (bindRun bound showFlag (es ++ [e])).layerVisible := by
  refine ⟨by simp [bindStep], by simp [bindStep], rfl,
    by simp [bindRun, bindInit, eq_comm], ?_⟩
  rw [bindRun, List.foldl_append]
  cases e with
  | overlayadd n =>
    simp only [eventLayer] at he
    simp [bindStep, he]
  | overlayremove n =>
    simp only [eventLayer] at he
    simp [bindStep, he]

/-- Claim C1, witness: instantiation of the amended binding invariant for
the 2022 layer after a single overlayadd event. -/
theorem C1_legend_binding_witness :
    (bindRun "Ertrag 2022" false ([] ++ [MapEvent.overlayadd "Ertrag 2022"])).legendVisible
      = (bindRun "Ertrag 2022" false ([] ++ [MapEvent.overlayadd "Ertrag 2022"])).layerVisible :=
  (C1_legend_binding "Ertrag 2022" false (bindInit false) []
    (MapEvent.overlayadd "Ertrag 2022") rfl).2.2.2.2

/-- Claim C2: under the implicit precondition that the two collections are
identically ordered and identically filtered (equal index-label sequences),
the difference layer's grain_yield at a label carried by both equals the
2022 attribute minus the 2019 attribute. The stored per-year attributes
are two-decimal values, for which the rounding of line 257 is exact. -/
theorem C2_difference (gy2022 gy2019 : Frame)
    (hlab : gy2022.labels = gy2019.labels)
    (h22 : "grain_yield" ∈ gy2022.columns) (h19 : "grain_yield" ∈ gy2019.columns)
    (l : Nat) (a b : ℚ)
    (ha : colVal gy2019 "grain_yield" l = some (Cell.num a))
    (hb : colVal gy2022 "grain_yield" l = some (Cell.num b))
    (hma : ∃ m : ℤ, a = (m : ℚ) / 100) (hmb : ∃ n : ℤ, b = (n : ℚ) / 100) :
    diffStored gy2022 gy2019 l = some (Cell.num (b - a)) := by
  obtain ⟨r, hrow⟩ : ∃ r, rowAt gy2022.rows l = some r := by
    unfold colVal at hb
    rcases hx : rowAt gy2022.rows l with _ | r
    · rw [hx] at hb
      simp at hb
    · exact ⟨r, rfl⟩
  rw [diffStored_eq _ _ h22 h19 l r hrow, ha, hb]
  obtain ⟨m, rfl⟩ := hma
  obtain ⟨n, rfl⟩ := hmb
  have hfix : round2 ((n : ℚ)/100 - (m : ℚ)/100) = (n : ℚ)/100 - (m : ℚ)/100 :=
    round2_fixed _ (n - m) (by push_cast; ring)
  simp [mapCellNum, hfix]

/-- Claim C2, witness: with stored year-1 attribute 4.50 and year-2
attribute 3.20 at the shared label 7, the difference layer stores -1.30. -/
theorem C2_difference_witness :
    diffStored gy22Sample gy19Sample 7 = some (Cell.num (-(13/10))) := by
  have h := C2_difference gy22Sample gy19Sample (by decide) (by decide) (by decide)
    7 (9/2) (16/5)
    (by simp [gy19Sample, gyRow, colVal, rowAt, getCell, lookupCell])
    (by simp [gy22Sample, gyRow, colVal, rowAt, getCell, lookupCell])
    ⟨450, by norm_num⟩ ⟨320, by norm_num⟩
  rw [h]
  norm_num

/-- Claim C3, counterexample: the code raises no InvalidInputError on an
empty feature collection; the layer-preparation pipeline succeeds and
produces an empty layer. No InvalidInputError exists anywhere in the code;
PdError, the only failure the column operations can raise, has no such
constructor. -/
theorem C3_counterexample :
    (processYear "Ertrag 2019 t/ha" inEmpty).isOk = true
    ∧ (∃ g, processYear "Ertrag 2019 t/ha" inEmpty = Except.ok g ∧ g.rows = []) := by
  have h := processYear_eq "Ertrag 2019 t/ha" inEmpty (by decide) (by decide)
  refine ⟨?_, ⟨_, h, rfl⟩⟩
  rw [h]
  rfl

/-- Claim C3, amended: the code performs no input validation and defines no
InvalidInputError. An empty collection is processed without error; a
missing trait_name column fails with the library's KeyError carrying the
column name (not the layer name); a collection whose renamed columns lack
grain_yield fails with KeyError on that column; and the pipeline succeeds
for every collection carrying the expected columns, empty or not. -/
theorem C3_validation (dc : String) (f : Frame) :
    ("trait_name" ∉ f.columns →
        processYear dc f = Except.error (PdError.keyError "trait_name"))
    ∧ ("trait_name" ∈ f.columns →
        "grain_yield" ∉ f.columns.map (substKey "trait_value" "grain_yield") →
        processYear dc f = Except.error (PdError.keyError "grain_yield"))
    ∧ ("trait_name" ∈ f.columns →
        "grain_yield" ∈ f.columns.map (substKey "trait_value" "grain_yield") →
        ∃ g, processYear dc f = Except.ok g) :=
  ⟨processYear_keyError_trait dc f,
   processYear_keyError_gy dc f,
   fun h1 h2 => ⟨_, processYear_eq dc f h1 h2⟩⟩

/-- Claim C3, witness: instantiations of the amended error behaviour on a
frame without trait columns and on the empty input collection. -/
theorem C3_validation_witness :
    processYear "Ertrag 2019 t/ha" noTraitFrame = Except.error (PdError.keyError "trait_name")
    ∧ (∃ g, processYear "Ertrag 2019 t/ha" inEmpty = Except.ok g) :=
  ⟨(C3_validation "Ertrag 2019 t/ha" noTraitFrame).1 (by decide),
   (C3_validation "Ertrag 2019 t/ha" inEmpty).2.2 (by decide) (by decide)⟩

/-- Claim C4: for a raw trait_value outside [0, 11] the stored per-year
grain_yield equals the raw value clamped to [0, 11] (raw 12.4 is stored as
11.0, raw -0.3 as 0.0), and the clipping step of lines 173/218 leaves any
rounded value inside [0, 11] unchanged. -/
theorem C4_clipping (dc : String) (f : Frame) (hwf : f.wfb = true)
    (hnc : "grain_yield" ∉ f.columns) (h1 : "trait_name" ∈ f.columns)
    (htv : "trait_value" ∈ f.columns) (l : Nat) (r : Row) (hr : rowAt f.rows l = some r)
    (htn : getCell r "trait_name" = Cell.str "Grain Yield [t/ha]")
    (v : ℚ) (hv : getCell r "trait_value" = Cell.num v) (hout : v < 0 ∨ 11 < v) :
    storedGY (processYear dc f) l = some (Cell.num (max 0 (min v 11)))
    ∧ (∀ w : ℚ, 0 ≤ w → w ≤ 11 → clipQ 0 11 (round2 w) = round2 w) := by
  constructor
  · rw [processYear_storedGY dc f hwf hnc h1 htv l r hr htn v hv]
    rcases hout with hlt | hgt
    · have h0 : round2 v ≤ 0 := by
        have := round2_le_of_le (q := v) (n := 0) (by exact_mod_cast hlt.le)
        simpa using this
      rw [clipQ_of_le h0, min_eq_left (by linarith : v ≤ 11), max_eq_left hlt.le]
    · have h11 : (11 : ℚ) ≤ round2 v := by
        have := le_round2_of_le (q := v) (n := 11) (by exact_mod_cast hgt.le)
        simpa using this
      rw [clipQ_of_ge (by norm_num) h11, min_eq_right hgt.le,
        max_eq_right (by norm_num : (0:ℚ) ≤ 11)]
  · intro w h0 h11
    apply clipQ_of_mem
    · have := le_round2_of_le (q := w) (n := 0) (by exact_mod_cast h0)
      simpa using this
    · have := round2_le_of_le (q := w) (n := 11) (by exact_mod_cast h11)
      simpa using this

/-- Claim C4, witness: raw 12.4 is stored as 11.0, raw -0.3 as 0.0, and a
value inside the range is untouched by the clipping step. -/
theorem C4_clipping_witness :
    storedGY (processYear "Ertrag 2019 t/ha" inHigh) 0 = some (Cell.num 11)
    ∧ storedGY (processYear "Ertrag 2019 t/ha" inLow) 0 = some (Cell.num 0)
    ∧ clipQ 0 11 (round2 5) = round2 5 := by
  have hHigh := C4_clipping "Ertrag 2019 t/ha" inHigh (by decide) (by decide) (by decide)
    (by decide) 0 (sampleRow 0 1 (62/5)) (by simp [inHigh, sampleRow, rowAt])
    (by simp [sampleRow, getCell, lookupCell]) (62/5)
    (by simp [sampleRow, getCell, lookupCell]) (Or.inr (by norm_num))
  have hLow := C4_clipping "Ertrag 2019 t/ha" inLow (by decide) (by decide) (by decide)
    (by decide) 0 (sampleRow 0 1 (-3/10)) (by simp [inLow, sampleRow, rowAt])
    (by simp [sampleRow, getCell, lookupCell]) (-3/10)
    (by simp [sampleRow, getCell, lookupCell]) (Or.inl (by norm_num))
  refine ⟨?_, ?_, hHigh.2 5 (by norm_num) (by norm_num)⟩
  · rw [hHigh.1]
    norm_num [max_def, min_def]
  · rw [hLow.1]
    norm_num [max_def, min_def]

/-- Claim C5, counterexample: the stored attribute is not, in general, the
raw value rounded to two decimal places: for raw value 12.4 the code stores
11.0 (the clipping of line 173 applies after the rounding of line 170),
while 12.4 rounded to two decimals is 12.4 itself. -/
theorem C5_counterexample :
    storedGY (processYear "Ertrag 2019 t/ha" inHigh) 0 = some (Cell.num 11)
    ∧ round2 (62/5) = 62/5
    ∧ ¬ (storedGY (processYear "Ertrag 2019 t/ha" inHigh) 0
          = some (Cell.num (round2 (62/5)))) := by
  have h := processYear_storedGY "Ertrag 2019 t/ha" inHigh (by decide) (by decide) (by decide)
    (by decide) 0 (sampleRow 0 1 (62/5)) (by simp [inHigh, sampleRow, rowAt])
    (by simp [sampleRow, getCell, lookupCell]) (62/5)
    (by simp [sampleRow, getCell, lookupCell])
  have e1 : round2 ((62 : ℚ)/5) = 62/5 := round2_fixed _ 1240 (by norm_num)
  have e2 : clipQ 0 11 ((62 : ℚ)/5) = 11 := clipQ_of_ge (by norm_num) (by norm_num)
  rw [h, e1, e2]
  refine ⟨rfl, rfl, ?_⟩
  simp only [Option.some.injEq, Cell.num.injEq]
  norm_num

/-- Claim C5, amended: the stored per-year attribute is the raw value
rounded to two decimal places and then clipped to [0, 11]; whenever the
rounded value already lies inside [0, 11] — as for raw 3.14159 — the
stored attribute is exactly the rounded raw value. -/
theorem C5_rounding (dc : String) (f : Frame) (hwf : f.wfb = true)
    (hnc : "grain_yield" ∉ f.columns) (h1 : "trait_name" ∈ f.columns)
    (htv : "trait_value" ∈ f.columns) (l : Nat) (r : Row) (hr : rowAt f.rows l = some r)
    (htn : getCell r "trait_name" = Cell.str "Grain Yield [t/ha]")
    (v : ℚ) (hv : getCell r "trait_value" = Cell.num v) :
    storedGY (processYear dc f) l = some (Cell.num (clipQ 0 11 (round2 v)))
    ∧ (0 ≤ round2 v → round2 v ≤ 11 → clipQ 0 11 (round2 v) = round2 v) :=
  ⟨processYear_storedGY dc f hwf hnc h1 htv l r hr htn v hv,
   fun h0 h11 => clipQ_of_mem h0 h11⟩

/-- Claim C5, witness: raw 3.14159 is stored as 3.14. -/
theorem C5_rounding_witness :
    storedGY (processYear "Ertrag 2019 t/ha" inPi) 0 = some (Cell.num (157/50)) := by
  have h := C5_rounding "Ertrag 2019 t/ha" inPi (by decide) (by decide) (by decide)
    (by decide) 0 (sampleRow 0 1 (314159/100000)) (by simp [inPi, sampleRow, rowAt])
    (by simp [sampleRow, getCell, lookupCell]) (314159/100000)
    (by simp [sampleRow, getCell, lookupCell])
  have e1 : round2 ((314159 : ℚ)/100000) = 157/50 := by
    have e := round2_eq_of_lt ((314159 : ℚ)/100000) 314 (by norm_num) (by norm_num)
    rw [e]
    norm_num
  rw [h.1, e1, clipQ_of_mem (by norm_num) (by norm_num)]

/-- Claim C6: in every successfully generated document, the registered
layers are, in order, the 2019 layer with show=True (line 187) and the
2022 and difference layers with show=False (lines 233, 272); the layer
control therefore reflects exactly one checked layer, the 2019 one. -/
theorem C6_default_visibility (read2019 read2022 : Except IOErr Frame) (doc : List Child)
    (h : generate_folium_map read2019 read2022 = Except.ok doc) :
    layerEntries doc
      = [("Ertrag 2019", true), ("Ertrag 2022", false), ("Ertragsdifferenz (2022-2019)", false)]
    ∧ controlChecked doc = ["Ertrag 2019"] := by
  obtain ⟨g1, g2, g3, rfl⟩ := generate_ok_eq _ _ _ h
  rw [buildDocument_eq]
  constructor
  · simp [layerEntries, emittedChildren]
  · simp [controlChecked, layerEntries, emittedChildren]

/-- Claim C6, witness: the document generated from two structurally valid
collections has exactly one checked layer, the 2019 one. -/
theorem C6_default_visibility_witness :
    layerEntries demoDoc
      = [("Ertrag 2019", true), ("Ertrag 2022", false), ("Ertragsdifferenz (2022-2019)", false)]
    ∧ controlChecked demoDoc = ["Ertrag 2019"] :=
  C6_default_visibility (Except.ok inEmpty) (Except.ok inEmpty) demoDoc rfl

/-- Claim C7: a document assembled from N layer specs contains exactly N
layer children, N legend (colormap) children, N legend bindings, and one
layer-visibility control, appended after all layers and listing the layers
in registration order; serializing the document and re-parsing it for
structural well-formedness recovers the same layer list, legend count, and
trailing control. -/
theorem C7_document_structure (specs : List LayerSpec) :
    layerEntries (buildDocument specs) = specs.map (fun s => (s.name, s.visible))
    ∧ countLegends (buildDocument specs) = specs.length
    ∧ countBindings (buildDocument specs) = specs.length
    ∧ countControls (buildDocument specs) = 1
    ∧ (buildDocument specs).getLast? = some (Child.layerControl false)
    ∧ parseDoc (serializeDoc (buildDocument specs))
        = some ⟨specs.map (fun s => (s.name, s.visible)), specs.length, true⟩ := by
  rw [buildDocument_eq]
  refine ⟨?_, ?_, ?_, ?_, ?_, ?_⟩
  · rw [layerEntries_append, layerEntries_cons, layerEntries_emitted specs 0]
    simp [layerEntries]
  · rw [countLegends_append, countLegends_cons, countLegends_emitted specs 0]
    simp [countLegends]
  · rw [countBindings_append, countBindings_cons, countBindings_emitted specs 0]
    simp [countBindings]
  · rw [countControls_append, countControls_cons, countControls_emitted specs 0]
    simp [countControls]
  · exact List.getLast?_concat _
  · have hs : serializeDoc ((Child.style :: emittedChildren specs 0) ++ [Child.layerControl false])
        = Tag.styleT :: (serializeDoc (emittedChildren specs 0) ++ [Tag.controlT]) := by
      simp [serializeDoc]
    rw [hs, parseDoc_style, parseDoc_emitted specs 0]

/-- Claim C8: the output file is written by the final statement of
generate_folium_map (line 293) only; any earlier failure, in particular an
I/O error of either read, propagates unchanged and aborts the run with no
output file, and a written file always holds the complete document whose
last child is the layer control. -/
theorem C8_output_atomicity (read2019 read2022 : Except IOErr Frame) :
    (∀ e, (run_generate read2019 read2022).1 = Except.error e →
        (run_generate read2019 read2022).2.outputFile = none)
    ∧ (∀ e, read2019 = Except.error e →
        (run_generate read2019 read2022).1 = Except.error (GenError.ioPart e))
    ∧ (∀ f1 g1 e, read2019 = Except.ok f1 →
        processYear "Ertrag 2019 t/ha" f1 = Except.ok g1 →
        read2022 = Except.error e →
        (run_generate read2019 read2022).1 = Except.error (GenError.ioPart e))
    ∧ (∀ doc, (run_generate read2019 read2022).2.outputFile = some doc →
        (run_generate read2019 read2022).1 = Except.ok ()
        ∧ generate_folium_map read2019 read2022 = Except.ok doc
        ∧ doc.getLast? = some (Child.layerControl false)) := by
  refine ⟨?_, ?_, ?_, ?_⟩
  · intro e he
    rcases hg : generate_folium_map read2019 read2022 with e2 | d
    · simp [run_generate, hg]
    · simp [run_generate, hg] at he
  · intro e he
    simp [run_generate, generate_folium_map, he]
  · intro f1 g1 e h1 h2 h3
    simp [run_generate, generate_folium_map, h1, h2, h3]
  · intro doc hdoc
    rcases hg : generate_folium_map read2019 read2022 with e2 | d
    · simp [run_generate, hg] at hdoc
    · simp only [run_generate, hg] at hdoc
      injection hdoc with hdoc2
      subst hdoc2
      refine ⟨by simp [run_generate, hg], rfl, ?_⟩
      obtain ⟨g1, g2, g3, rfl⟩ := generate_ok_eq _ _ _ hg
      rw [buildDocument_eq]
      exact List.getLast?_concat _

/-- Claim C8, witness: a failing 2019 read propagates unchanged and leaves
no output file. -/
theorem C8_output_atomicity_witness :
    (run_generate (Except.error (IOErr.fileNotFound "data/grain_yield_2019_sh.gpkg"))
        (Except.ok inEmpty)).1
      = Except.error (GenError.ioPart (IOErr.fileNotFound "data/grain_yield_2019_sh.gpkg"))
    ∧ (run_generate (Except.error (IOErr.fileNotFound "data/grain_yield_2019_sh.gpkg"))
        (Except.ok inEmpty)).2.outputFile = none := by
  have h := C8_output_atomicity
    (Except.error (IOErr.fileNotFound "data/grain_yield_2019_sh.gpkg")) (Except.ok inEmpty)
  have h1 := h.2.1 _ rfl
  exact ⟨h1, h.1 _ h1⟩

/-- Claim C9: the difference attribute is computed from the already clipped
per-year values and rounded to two decimal places, with no clipping step of
its own (lines 252-260); consequently it always lies in [-11, 11] and
negative differences are stored as-is. -/
theorem C9_diff_unclipped (dc1 dc2 : String) (f2019 f2022 : Frame)
    (hwf19 : f2019.wfb = true) (hnc19 : "grain_yield" ∉ f2019.columns)
    (h19 : "trait_name" ∈ f2019.columns) (htv19 : "trait_value" ∈ f2019.columns)
    (hwf22 : f2022.wfb = true) (hnc22 : "grain_yield" ∉ f2022.columns)
    (h22 : "trait_name" ∈ f2022.columns) (htv22 : "trait_value" ∈ f2022.columns)
    (l : Nat) (r19 r22 : Row)
    (hr19 : rowAt f2019.rows l = some r19) (hr22 : rowAt f2022.rows l = some r22)
    (htn19 : getCell r19 "trait_name" = Cell.str "Grain Yield [t/ha]")
    (htn22 : getCell r22 "trait_name" = Cell.str "Grain Yield [t/ha]")
    (v1 v2 : ℚ)
    (hv19 : getCell r19 "trait_value" = Cell.num v1)
    (hv22 : getCell r22 "trait_value" = Cell.num v2) :
    yearThenDiff dc1 dc2 f2019 f2022 l
      = some (Cell.num (round2 (clipQ 0 11 (round2 v2) - clipQ 0 11 (round2 v1))))
    ∧ (-11 : ℚ) ≤ round2 (clipQ 0 11 (round2 v2) - clipQ 0 11 (round2 v1))
    ∧ round2 (clipQ 0 11 (round2 v2) - clipQ 0 11 (round2 v1)) ≤ 11 := by
  have hg19 : "grain_yield" ∈ f2019.columns.map (substKey "trait_value" "grain_yield") := by
    refine List.mem_map.mpr ⟨"trait_value", htv19, ?_⟩
    simp [substKey]
  have hg22 : "grain_yield" ∈ f2022.columns.map (substKey "trait_value" "grain_yield") := by
    refine List.mem_map.mpr ⟨"trait_value", htv22, ?_⟩
    simp [substKey]
  obtain ⟨G19, hok19⟩ : ∃ g, processYear dc1 f2019 = Except.ok g :=
    ⟨_, processYear_eq dc1 f2019 h19 hg19⟩
  obtain ⟨G22, hok22⟩ : ∃ g, processYear dc2 f2022 = Except.ok g :=
    ⟨_, processYear_eq dc2 f2022 h22 hg22⟩
  have hs19 := processYear_storedGY dc1 f2019 hwf19 hnc19 h19 htv19 l r19 hr19 htn19 v1 hv19
  have hs22 := processYear_storedGY dc2 f2022 hwf22 hnc22 h22 htv22 l r22 hr22 htn22 v2 hv22
  rw [hok19] at hs19
  rw [hok22] at hs22
  simp only [storedGY] at hs19 hs22
  have hcol19 : "grain_yield" ∈ G19.columns := processYear_gy_mem h19 hg19 hok19
  have hcol22 : "grain_yield" ∈ G22.columns := processYear_gy_mem h22 hg22 hok22
  have hb2 := clipQ_mem 0 11 (round2 v2) (by norm_num)
  have ha2 := clipQ_mem 0 11 (round2 v1) (by norm_num)
  refine ⟨?_, ?_, ?_⟩
  · unfold yearThenDiff
    rw [hok19, hok22]
    show diffStored G22 G19 l
      = some (Cell.num (round2 (clipQ 0 11 (round2 v2) - clipQ 0 11 (round2 v1))))
    obtain ⟨rg, hrowg⟩ : ∃ rg, rowAt G22.rows l = some rg := by
      rcases hx : rowAt G22.rows l with _ | rg
      · rw [colVal, hx] at hs22
        simp at hs22
      · exact ⟨rg, rfl⟩
    rw [diffStored_eq _ _ hcol22 hcol19 l rg hrowg, hs22, hs19]
    simp [mapCellNum]
  · have hle : ((-11 : ℤ) : ℚ) ≤ clipQ 0 11 (round2 v2) - clipQ 0 11 (round2 v1) := by
      push_cast
      linarith [hb2.1, ha2.2]
    have := le_round2_of_le hle
    simpa using this
  · have hle : clipQ 0 11 (round2 v2) - clipQ 0 11 (round2 v1) ≤ ((11 : ℤ) : ℚ) := by
      push_cast
      linarith [hb2.2, ha2.1]
    have := round2_le_of_le hle
    simpa using this

/-- Claim C9, witness: raw inputs 4.50 (2019) and 3.20 (2022) give a stored
difference of -1.30, negative and unclipped, inside [-11, 11]. -/
theorem C9_diff_unclipped_witness :
    yearThenDiff "Ertrag 2019 t/ha" "Ertrag 2022 t/ha" in2019 in2022 7
      = some (Cell.num (-(13/10)))
    ∧ (-11 : ℚ) ≤ -(13/10) ∧ -(13/10 : ℚ) ≤ 11 := by
  have h := C9_diff_unclipped "Ertrag 2019 t/ha" "Ertrag 2022 t/ha" in2019 in2022
    (by decide) (by decide) (by decide) (by decide)
    (by decide) (by decide) (by decide) (by decide)
    7 (sampleRow 7 1 (9/2)) (sampleRow 7 1 (16/5))
    (by simp [in2019, sampleRow, rowAt]) (by simp [in2022, sampleRow, rowAt])
    (by simp [sampleRow, getCell, lookupCell]) (by simp [sampleRow, getCell, lookupCell])
    (9/2) (16/5)
    (by simp [sampleRow, getCell, lookupCell]) (by simp [sampleRow, getCell, lookupCell])
  have e19 : clipQ 0 11 (round2 ((9 : ℚ)/2)) = 9/2 := by
    rw [round2_fixed _ 450 (by norm_num)]
    exact clipQ_of_mem (by norm_num) (by norm_num)
  have e22 : clipQ 0 11 (round2 ((16 : ℚ)/5)) = 16/5 := by
    rw [round2_fixed _ 320 (by norm_num)]
    exact clipQ_of_mem (by norm_num) (by norm_num)
  rw [e19, e22] at h
  have e3 : round2 ((16 : ℚ)/5 - 9/2) = -(13/10) := by
    rw [round2_fixed _ (-130) (by norm_num)]
    norm_num
  rw [e3] at h
  exact h

/-- Claim C10: the difference subtraction aligns the two collections by
their pandas index labels, not by the _uid0_ column; a label present in
the 2022 frame but absent from the 2019 frame yields NaN in the difference
layer, with no error raised, and a label present only in the 2019 frame
yields NaN in the aligned subtraction series. -/
theorem C10_label_alignment (gy2022 gy2019 : Frame)
    (h22 : "grain_yield" ∈ gy2022.columns) (h19 : "grain_yield" ∈ gy2019.columns)
    (l : Nat) (r : Row) (hrow : rowAt gy2022.rows l = some r)
    (hnl : l ∉ gy2019.labels) :
    diffStored gy2022 gy2019 l = some Cell.na
    ∧ (diffPipeline gy2022 gy2019).isOk = true
    ∧ (∀ l2, l2 ∈ gy2019.labels → l2 ∉ gy2022.labels →
        lookupS (diffSub gy2022 gy2019) l2 = some Cell.na) := by
  have h1 : colVal gy2019 "grain_yield" l = none := by
    unfold colVal
    rw [rowAt_none (by simpa [Frame.labels] using hnl)]
    rfl
  have hd := diffStored_eq _ _ h22 h19 l r hrow
  have h2 : colVal gy2022 "grain_yield" l = some (getCell r "grain_yield") := by
    unfold colVal
    rw [hrow]
    rfl
  rw [h1, h2] at hd
  have hdna : diffStored gy2022 gy2019 l = some Cell.na := by
    rcases hgc : getCell r "grain_yield" with s | q | _
    all_goals rw [hgc] at hd
    all_goals simpa [mapCellNum] using hd
  refine ⟨hdna, storedGY_isOk hdna, ?_⟩
  intro l2 hin hout
  have h22n : lookupS (colSeries gy2022 "grain_yield") l2 = none := by
    rw [lookupS_colSeries]
    unfold colVal
    rw [rowAt_none (by simpa [Frame.labels] using hout)]
    rfl
  have hmem : l2 ∈ (colSeries gy2022 "grain_yield").map Prod.fst
      ++ ((colSeries gy2019 "grain_yield").map Prod.fst).filter
          (fun x => decide (x ∉ (colSeries gy2022 "grain_yield").map Prod.fst)) := by
    refine List.mem_append_right _ (List.mem_filter.mpr ⟨?_, ?_⟩)
    · rw [colSeries_fst]
      exact hin
    · simp only [colSeries_fst]
      exact decide_eq_true hout
  unfold diffSub seriesSub
  rw [lookupS_mapLabel, if_pos hmem, h22n]

/-- Claim C10, witness: collections whose single labels 7 (2022) and 9
(2019) do not overlap produce a NaN difference at label 7, no error, and a
NaN aligned-series value at label 9. -/
theorem C10_label_alignment_witness :
    diffStored gy22Disjoint gy19Disjoint 7 = some Cell.na
    ∧ (diffPipeline gy22Disjoint gy19Disjoint).isOk = true
    ∧ lookupS (diffSub gy22Disjoint gy19Disjoint) 9 = some Cell.na := by
  have h := C10_label_alignment gy22Disjoint gy19Disjoint (by decide) (by decide)
    7 (gyRow 7 5) (by simp [gy22Disjoint, gyRow, rowAt]) (by decide)
  exact ⟨h.1, h.2.1, h.2.2 9 (by decide) (by decide)⟩

end WWDrought
